import Mathlib

/-!
Shallow embedding of the retrieval-augmented answer-evaluation pipeline of the
excel-mock-interviewer repository: the grader (src/grader.py), the RAG
retrieval layer (src/rag_manager.py) and the session aggregation step
(src/interview_agent.py). Python floats in scores are modelled as rationals
(all arithmetic involved is on exact multiples of 1/2, which binary floating
point represents and adds exactly at session sizes); external services (the
OpenAI embedding and chat endpoints, ChromaDB) are modelled as explicit
parameters or outcome data, with exceptions modelled as error values.
-/

namespace ExcelMock

/-- Question record from the question bank (src/interview_agent.py, class Question). -/
structure Question where
  id : String
  text : String
  difficulty : String
  topic : String
  ideal_answer : String
  deriving DecidableEq

/-- Graded answer record (src/interview_agent.py, class GradedAnswer); the score
float is modelled as a rational. -/
structure GradedAnswer where
  question_id : String
  user_response : String
  correctness : String
  justification : String
  tips_for_improvement : String
  score : ℚ
  deriving DecidableEq

/-- Fields the grader reads from the parsed JSON evaluation dict at
src/grader.py lines 80-86; a missing key is modelled as none, matching the
dict.get calls with their default values. -/
structure EvalDict where
  correctness : Option String
  justification : Option String
  tips_for_improvement : Option String
  deriving DecidableEq

/-- Outcome of the judgment-oracle invocation inside the try block of
Grader.grade_answer (src/grader.py lines 66-122): the call raised an exception
(caught at line 113 by except Exception), or it returned text that failed JSON
parsing (caught at line 103 by except json.JSONDecodeError), or it returned
text that parsed to a dict. The two exception classes are disjoint, so the
handler order in the source does not matter here. -/
inductive OracleOutcome where
  | raised (msg : String)
  | parseFailed (msg : String)
  | parsed (d : EvalDict)
  deriving DecidableEq

/-- The three correctness strings accepted at src/grader.py line 81. -/
def acceptedCorrectness : List String := ["Correct", "Partially Correct", "Incorrect"]

/-- Default used by dict.get for a missing correctness key (src/grader.py line 80). -/
def fallbackCorrectness : String := "Incorrect"

/-- Default used by dict.get for a missing justification key (src/grader.py line 85). -/
def defaultJustification : String := "No justification provided by AI."

/-- Default used by dict.get for a missing tips key (src/grader.py line 86). -/
def defaultTips : String := "No specific tips provided by AI."

/-- Tips text of the JSON-parse-failure verdict (src/grader.py line 110). -/
def parseFailTips : String := "Ensure the LLM generates valid JSON. Check prompt and model settings."

/-- Tips text of the generic-exception verdict (src/grader.py line 120). -/
def unexpectedErrorTips : String := "Please check your OpenAI API key and network connection. Also verify ChromaDB setup."

/-- Shallow embedding of Grader.grade_answer (src/grader.py lines 24-122) as a
function of the outcome of the judgment-oracle call. Retrieved context only
changes the prompt text sent to the oracle, never the verdict construction, so
it does not appear as a parameter. The function is total: every branch of the
source returns a GradedAnswer and no exception escapes past the two handlers. -/
def grade_answer (question : Question) (user_answer_text : String)
    (outcome : OracleOutcome) : GradedAnswer :=
  match outcome with
  | .parsed d =>
      let c0 := d.correctness.getD fallbackCorrectness
      let correctness := if c0 ∈ acceptedCorrectness then c0 else fallbackCorrectness
      let justification := d.justification.getD defaultJustification
      let tips := d.tips_for_improvement.getD defaultTips
      let score : ℚ :=
        if correctness = "Correct" then 1
        else if correctness = "Partially Correct" then 1/2
        else 0
      ⟨question.id, user_answer_text, correctness, justification, tips, score⟩
  | .parseFailed e =>
      ⟨question.id, user_answer_text, "Error",
        "AI response was not valid JSON: " ++ e, parseFailTips, 0⟩
  | .raised e =>
      ⟨question.id, user_answer_text, "Error",
        "An unexpected error occurred: " ++ e, unexpectedErrorTips, 0⟩

/-- The fixed correctness-to-score table of the specification: Correct maps to
1.0, Partially Correct to 0.5, Incorrect to 0.0, Error to 0.0, and any other
correctness string is outside the table. -/
def specScoreTable (correctness : String) : Option ℚ :=
  if correctness = "Correct" then some 1
  else if correctness = "Partially Correct" then some (1/2)
  else if correctness = "Incorrect" then some 0
  else if correctness = "Error" then some 0
  else none

/-- Metadata stored per document in the knowledge base
(src/rag_manager.py lines 63-68). -/
structure DocMetadata where
  question_id : String
  question_text : String
  difficulty : String
  topic : String
  deriving DecidableEq

/-- Raw nearest-neighbour answer of the backing store, before ChromaDB applies
include-filtering: parallel outer lists holding one inner list per query
embedding. -/
structure RawQueryResult where
  documents : List (List String)
  metadatas : List (List DocMetadata)
  distances : List (List ℚ)
  deriving DecidableEq

/-- ChromaDB query result as the caller sees it: per chromadb's documented
query contract, every field not named in the include argument comes back as
None (the ids field, always present, is not read by this code and is omitted).
Used at src/rag_manager.py lines 99-103. -/
structure QueryResult where
  documents : Option (List (List String))
  metadatas : Option (List (List DocMetadata))
  distances : Option (List (List ℚ))
  deriving DecidableEq

/-- ChromaDB's include-filtering of a query result: a field is Some exactly
when its name is listed in the include argument. -/
def chromaIncludeFilter (raw : RawQueryResult) (fields : List String) : QueryResult :=
  ⟨if "documents" ∈ fields then some raw.documents else none,
   if "metadatas" ∈ fields then some raw.metadatas else none,
   if "distances" ∈ fields then some raw.distances else none⟩

/-- Retrieved context item as assembled at src/rag_manager.py lines 109-113:
document text, its metadata, and the distance slot, which the source fills
with None whenever results of the distances key are falsy. -/
structure RetrievedContext where
  document : String
  metadata : DocMetadata
  distance : Option ℚ
  deriving DecidableEq

/-- Python truthiness of an optional list: None and the empty list are falsy. -/
def pyTruthy {α : Type} (o : Option (List α)) : Bool :=
  match o with
  | none => false
  | some l => !l.isEmpty

/-- Sequential Option-valued map: the whole list is produced only if every
element is; a none aborts everything, the way an exception thrown inside the
formatting loop of src/rag_manager.py lines 108-113 aborts the loop and lands
in the except handler of line 115. -/
def optionMapList {α β : Type} (f : α → Option β) : List α → Option (List β)
  | [] => some []
  | a :: as =>
    match f a, optionMapList f as with
    | some b, some bs => some (b :: bs)
    | _, _ => none

/-- One iteration of the result-formatting loop (src/rag_manager.py lines
108-113): index into documents[0], then metadatas[0], then — only when the
distances field is truthy — into distances[0]. A none result models a Python
exception (TypeError on indexing None, IndexError on a short list) escaping
into the except handler of line 115. -/
def formatItem (res : QueryResult) (docs0 : List String) (i : Nat) :
    Option RetrievedContext :=
  match docs0.get? i, res.metadatas with
  | some doc, some metasOuter =>
    match metasOuter.get? 0 with
    | some metas0 =>
      match metas0.get? i with
      | some meta =>
        if pyTruthy res.distances then
          match res.distances with
          | some distsOuter =>
            match distsOuter.get? 0 with
            | some dists0 =>
              match dists0.get? i with
              | some d => some ⟨doc, meta, some d⟩
              | none => none
            | none => none
          | none => none
        else some ⟨doc, meta, none⟩
      | none => none
    | none => none
  | _, _ => none

/-- Result formatting of src/rag_manager.py lines 106-114: when the documents
field is falsy (None or the empty outer list) the loop body never runs and the
empty context list is returned; otherwise each index i in
range(len(documents[0])) contributes one item. -/
def formatResults (res : QueryResult) : Option (List RetrievedContext) :=
  match res.documents with
  | none => some []
  | some [] => some []
  | some (docs0 :: _) => optionMapList (formatItem res docs0) (List.range docs0.length)

/-- Return value of retrieve_context paired with the number of calls the run
made to the embedding oracle (_get_embedding, src/rag_manager.py lines 39-47). -/
structure RetrieveOutcome where
  result : List RetrievedContext
  oracleCalls : Nat
  deriving DecidableEq

/-- The include argument passed to collection.query at
src/rag_manager.py line 102; distances is not requested. -/
def retrieveIncludeFields : List String := ["documents", "metadatas"]

/-- Shallow embedding of RAGManager.retrieve_context (src/rag_manager.py lines
89-117). embed models _get_embedding, with error standing for an exception
from the OpenAI embeddings call; queryIndex models the ChromaDB backend behind
collection.query, with error standing for a backend exception; the include
filtering of line 102 is applied to the raw backend answer. The guard models
line 94's Python falsiness test on a string, which is true exactly for the
empty string, and every exception raised after that guard is caught at line
115 and converted to the empty list. -/
def retrieve_context (embed : String → Except String (List ℚ))
    (queryIndex : List ℚ → Nat → Except String RawQueryResult)
    (query : String) (n_results : Nat) : RetrieveOutcome :=
  if query = "" then ⟨[], 0⟩
  else
    match embed query with
    | .error _ => ⟨[], 1⟩
    | .ok emb =>
      match queryIndex emb n_results with
      | .error _ => ⟨[], 1⟩
      | .ok raw =>
        match formatResults (chromaIncludeFilter raw retrieveIncludeFields) with
        | none => ⟨[], 1⟩
        | some ctx => ⟨ctx, 1⟩

/-- Effect summary of a knowledge-base build: how many embedding-oracle calls
were issued and how many documents were inserted into the collection. -/
structure BuildEffect where
  embedCalls : Nat
  insertedDocs : Nat
  deriving DecidableEq

/-- Shallow embedding of RAGManager._build_knowledge_base (src/rag_manager.py
lines 49-87), tracked at the level of its external effects: one embedding call
per question and one insert per document when the documents list is non-empty,
nothing at all when it is empty. -/
def build_knowledge_base (questions : List Question) : BuildEffect :=
  let documents := questions.map (fun q => q.ideal_answer)
  if documents.isEmpty then ⟨0, 0⟩
  else ⟨documents.length, documents.length⟩

/-- Shallow embedding of the build decision in RAGManager.init
(src/rag_manager.py lines 27-36): the knowledge base is rebuilt only when the
existing collection count is zero, otherwise the build is skipped entirely. -/
def rag_init_build (storeCount : Nat) (questions : List Question) : BuildEffect :=
  if storeCount = 0 then build_knowledge_base questions else ⟨0, 0⟩

/-- Interview-state fields that record_graded_answer touches
(src/interview_agent.py, class InterviewState, lines 38-39). -/
structure InterviewState where
  graded_answers : List GradedAnswer
  overall_score : ℚ
  deriving DecidableEq

/-- Score increment chosen by correctness in InterviewAgent.record_graded_answer
(src/interview_agent.py lines 126-130): Incorrect and Error add nothing. -/
def correctnessIncrement (correctness : String) : ℚ :=
  if correctness = "Correct" then 1
  else if correctness = "Partially Correct" then 1/2
  else 0

/-- Shallow embedding of InterviewAgent.record_graded_answer
(src/interview_agent.py lines 121-130). -/
def record_graded_answer (st : InterviewState) (ga : GradedAnswer) : InterviewState :=
  ⟨st.graded_answers ++ [ga], st.overall_score + correctnessIncrement ga.correctness⟩

/-- Recording a whole session of graded answers in order, starting from a
given state. -/
def recordAll (init : InterviewState) (gas : List GradedAnswer) : InterviewState :=
  gas.foldl record_graded_answer init

/-! Helper lemmas shared by several claim theorems. -/

lemma specScoreTable_of_normalized (c0 : String) :
    specScoreTable (if c0 ∈ acceptedCorrectness then c0 else fallbackCorrectness)
      = some (if (if c0 ∈ acceptedCorrectness then c0 else fallbackCorrectness) = "Correct" then (1 : ℚ)
              else if (if c0 ∈ acceptedCorrectness then c0 else fallbackCorrectness) = "Partially Correct" then 1/2
              else 0) := by
  by_cases hm : c0 ∈ acceptedCorrectness
  · rw [if_pos hm]
    have h3 : c0 = "Correct" ∨ c0 = "Partially Correct" ∨ c0 = "Incorrect" := by
      simpa [acceptedCorrectness] using hm
    rcases h3 with h | h | h <;> subst h <;> rfl
  · rw [if_neg hm]
    rfl

/-- C1: every verdict grade_answer produces has its score equal to the fixed
correctness-to-score table (Correct 1, Partially Correct 1/2, Incorrect 0,
Error 0), and its correctness is always inside the table's domain. -/
theorem score_matches_spec_table (q : Question) (a : String) (o : OracleOutcome) :
    specScoreTable (grade_answer q a o).correctness = some (grade_answer q a o).score := by
  cases o with
  | raised e => rfl
  | parseFailed e => rfl
  | parsed d => exact specScoreTable_of_normalized (d.correctness.getD fallbackCorrectness)

/-- C4: a JSON-parse failure of the oracle output yields a verdict with
correctness Error, a justification describing the parse failure, and score 0;
grade_answer is total, so no exception reaches the caller. -/
theorem parse_failure_yields_error_verdict (q : Question) (a : String) (e : String) :
    (grade_answer q a (.parseFailed e)).correctness = "Error" ∧
    (grade_answer q a (.parseFailed e)).justification = "AI response was not valid JSON: " ++ e ∧
    (grade_answer q a (.parseFailed e)).score = 0 :=
  ⟨rfl, rfl, rfl⟩

/-- C6: any exception raised during the oracle invocation yields a verdict
with correctness Error, a justification naming the failure, and score 0;
grade_answer is total, so the caller always receives a GradedAnswer and never
an exception. -/
theorem oracle_failure_yields_error_verdict (q : Question) (a : String) (e : String) :
    (grade_answer q a (.raised e)).correctness = "Error" ∧
    (grade_answer q a (.raised e)).justification = "An unexpected error occurred: " ++ e ∧
    (grade_answer q a (.raised e)).score = 0 :=
  ⟨rfl, rfl, rfl⟩

/-- C5: when the parsed oracle response's correctness field is missing or not
one of the three accepted literal strings, grade_answer coerces correctness to
Incorrect and the verdict's score is 0. -/
theorem unaccepted_correctness_coerced (q : Question) (a : String) (d : EvalDict)
    (h : ∀ c ∈ d.correctness, c ∉ acceptedCorrectness) :
    (grade_answer q a (.parsed d)).correctness = "Incorrect" ∧
    (grade_answer q a (.parsed d)).score = 0 := by
  have hnorm : (if d.correctness.getD fallbackCorrectness ∈ acceptedCorrectness
      then d.correctness.getD fallbackCorrectness else fallbackCorrectness) = "Incorrect" := by
    cases hd : d.correctness with
    | none => rfl
    | some c =>
      have hc : c ∉ acceptedCorrectness := h c (by simp [hd])
      simp [hd, hc, fallbackCorrectness]
  refine ⟨hnorm, ?_⟩
  show (if (if d.correctness.getD fallbackCorrectness ∈ acceptedCorrectness
          then d.correctness.getD fallbackCorrectness else fallbackCorrectness) = "Correct" then (1 : ℚ)
        else if (if d.correctness.getD fallbackCorrectness ∈ acceptedCorrectness
          then d.correctness.getD fallbackCorrectness else fallbackCorrectness) = "Partially Correct" then 1/2
        else 0) = 0
  rw [hnorm]
  rfl

/-- Example question used by concrete witnesses. -/
def exQuestion : Question :=
  ⟨"q1", "What does SUM do?", "easy", "Formulas", "SUM adds a range of numbers."⟩

/-- Parsed oracle response carrying an out-of-contract correctness value. -/
def dictMaybe : EvalDict := ⟨some "Maybe", none, none⟩

/-- Candidate answer used by the C5 witness. -/
def ansUnsure : String := "It could be several things."

/-- Witness for C5 at a concrete out-of-contract correctness value. -/
theorem unaccepted_correctness_coerced_witness :
    (grade_answer exQuestion ansUnsure (.parsed dictMaybe)).correctness = "Incorrect" ∧
    (grade_answer exQuestion ansUnsure (.parsed dictMaybe)).score = 0 :=
  unaccepted_correctness_coerced exQuestion ansUnsure dictMaybe
    (by intro c hc; simp [dictMaybe] at hc; subst hc; decide)

/-- C10: in every branch of grade_answer, the returned verdict carries the
input question's id and the candidate's answer text verbatim. -/
theorem verdict_attribution_preserved (q : Question) (a : String) (o : OracleOutcome) :
    (grade_answer q a o).question_id = q.id ∧ (grade_answer q a o).user_response = a := by
  cases o <;> exact ⟨rfl, rfl⟩

/-! Concrete collaborators used by retrieval witnesses and counterexamples. -/

/-- Embedding oracle that always succeeds with a fixed vector. -/
def okEmbed : String → Except String (List ℚ) := fun _ => .ok [1]

/-- Embedding oracle that always fails, modelling an unreachable endpoint. -/
def failEmbed : String → Except String (List ℚ) := fun _ => .error "network unreachable"

/-- Metadata of the example knowledge-base document. -/
def exMeta : DocMetadata := ⟨"q1", "What does SUM do?", "easy", "Formulas"⟩

/-- Raw backend answer holding one hit with a genuine numeric distance. -/
def exRaw : RawQueryResult :=
  ⟨[["SUM adds a range of numbers."]], [[exMeta]], [[1/10]]⟩

/-- Backend that always returns the example hit. -/
def okIndex : List ℚ → Nat → Except String RawQueryResult := fun _ _ => .ok exRaw

/-- Whitespace-only query string. -/
def blankQuery : String := "   "

/-- Query string used by the retrieval examples. -/
def sumQuery : String := "What does SUM do?"

/-- Context item the example retrieval produces: note the distance slot is none
even though the backend held the numeric distance 1/10, because the include
argument at src/rag_manager.py line 102 does not request distances. -/
def exRetrieved : RetrievedContext := ⟨"SUM adds a range of numbers.", exMeta, none⟩

lemma retrieve_example_eval :
    (retrieve_context okEmbed okIndex sumQuery 1).result = [exRetrieved] := by decide

/-- C2 counterexample: a whitespace-only (non-empty) query is not
short-circuited; the run invokes the embedding oracle once, refuting the
zero-calls claim for blank queries. -/
theorem blank_query_invokes_oracle :
    (retrieve_context okEmbed okIndex blankQuery 1).oracleCalls ≠ 0 := by decide

/-- C2 amended: only the genuinely empty query string is short-circuited — it
yields the empty sequence with zero embedding-oracle calls, for every oracle
and index. -/
theorem empty_query_short_circuits (embed : String → Except String (List ℚ))
    (queryIndex : List ℚ → Nat → Except String RawQueryResult) (n : Nat) :
    retrieve_context embed queryIndex "" n = ⟨[], 0⟩ := rfl

/-- C3: when the backing store already holds exactly as many documents as
there are questions to load, initialization performs zero embedding calls and
zero inserts — the skip branch for a non-empty bank, and an effect-free build
for an empty bank. -/
theorem already_loaded_build_is_noop (questions : List Question) :
    rag_init_build questions.length questions = ⟨0, 0⟩ := by
  cases questions with
  | nil => rfl
  | cons q qs => simp [rag_init_build]

/-- C7: any failure of the embedding oracle, or of the index query after a
successful embedding, is swallowed and the retrieval returns the empty
sequence instead of propagating the error. -/
theorem retrieval_failure_swallowed (embed : String → Except String (List ℚ))
    (queryIndex : List ℚ → Nat → Except String RawQueryResult)
    (query : String) (n : Nat)
    (h : (∃ msg, embed query = .error msg) ∨
         (∃ emb msg, embed query = .ok emb ∧ queryIndex emb n = .error msg)) :
    (retrieve_context embed queryIndex query n).result = [] := by
  unfold retrieve_context
  by_cases hq : query = ""
  · rw [if_pos hq]
  · rw [if_neg hq]
    rcases h with ⟨msg, hmsg⟩ | ⟨emb, msg, hok, herr⟩
    · rw [hmsg]
    · simp only [hok, herr]

/-- Witness for C7 with an embedding oracle that always fails. -/
theorem retrieval_failure_swallowed_witness :
    (retrieve_context failEmbed okIndex sumQuery 1).result = [] :=
  retrieval_failure_swallowed failEmbed okIndex sumQuery 1
    (Or.inl ⟨"network unreachable", rfl⟩)

/-- C8 counterexample: at a concrete retrieval with one hit whose backend
distance is the numeric 1/10, the returned element carries no numeric
distance at all — the claim that every returned element has a non-negative
numeric distance is false. -/
theorem retrieved_distance_not_numeric :
    ¬ (∀ ctx ∈ (retrieve_context okEmbed okIndex sumQuery 1).result,
        ∃ d : ℚ, ctx.distance = some d ∧ 0 ≤ d) := by
  intro h
  have hmem : exRetrieved ∈ (retrieve_context okEmbed okIndex sumQuery 1).result := by
    rw [retrieve_example_eval]
    exact List.mem_singleton.mpr rfl
  obtain ⟨d, hd, _⟩ := h exRetrieved hmem
  exact Option.noConfusion hd

lemma includeFilter_distances_none (raw : RawQueryResult) :
    (chromaIncludeFilter raw retrieveIncludeFields).distances = none := by
  show (if ("distances" : String) ∈ retrieveIncludeFields then some raw.distances else none) = none
  rw [if_neg (by decide)]

lemma formatItem_distance_none (res : QueryResult) (docs0 : List String) (i : Nat)
    (hnd : res.distances = none) (ctx : RetrievedContext)
    (h : formatItem res docs0 i = some ctx) : ctx.distance = none := by
  unfold formatItem at h
  split at h
  · split at h
    · split at h
      · split at h
        · rename_i htruthy
          rw [hnd] at htruthy
          exact absurd htruthy (by decide)
        · cases h
          rfl
      · exact Option.noConfusion h
    · exact Option.noConfusion h
  · exact Option.noConfusion h

lemma optionMapList_mem {α β : Type} (f : α → Option β) :
    ∀ (as : List α) (bs : List β), optionMapList f as = some bs →
      ∀ b ∈ bs, ∃ a, f a = some b := by
  intro as
  induction as with
  | nil =>
    intro bs h b hb
    cases h
    exact absurd hb (List.not_mem_nil b)
  | cons a as ih =>
    intro bs h b hb
    unfold optionMapList at h
    cases hfa : f a <;> rw [hfa] at h
    · exact Option.noConfusion h
    rename_i b0
    cases hrest : optionMapList f as <;> rw [hrest] at h
    · exact Option.noConfusion h
    rename_i bs0
    cases h
    rcases List.mem_cons.mp hb with hb | hb
    · exact ⟨a, by rw [hfa, hb]⟩
    · exact ih bs0 hrest b hb

lemma formatResults_distance_none (res : QueryResult) (hnd : res.distances = none)
    (ctxs : List RetrievedContext) (h : formatResults res = some ctxs) :
    ∀ ctx ∈ ctxs, ctx.distance = none := by
  unfold formatResults at h
  cases hd : res.documents <;> rw [hd] at h
  · cases h
    intro ctx hctx
    exact absurd hctx (List.not_mem_nil ctx)
  rename_i docsOuter
  cases docsOuter with
  | nil =>
    cases h
    intro ctx hctx
    exact absurd hctx (List.not_mem_nil ctx)
  | cons docs0 rest =>
    intro ctx hctx
    obtain ⟨i, hi⟩ := optionMapList_mem (formatItem res docs0) (List.range docs0.length) ctxs h ctx hctx
    exact formatItem_distance_none res docs0 i hnd ctx hi

/-- C8 amended: every element the retrieval returns carries distance = none,
for every oracle, index, query and result count, because the include argument
of the index query never requests distances. -/
theorem retrieved_distance_always_none (embed : String → Except String (List ℚ))
    (queryIndex : List ℚ → Nat → Except String RawQueryResult)
    (query : String) (n : Nat) (ctx : RetrievedContext)
    (h : ctx ∈ (retrieve_context embed queryIndex query n).result) :
    ctx.distance = none := by
  unfold retrieve_context at h
  by_cases hq : query = ""
  · rw [if_pos hq] at h
    exact absurd h (List.not_mem_nil ctx)
  rw [if_neg hq] at h
  cases he : embed query <;> simp only [he] at h
  · exact absurd h (List.not_mem_nil ctx)
  rename_i emb
  cases hqi : queryIndex emb n <;> simp only [hqi] at h
  · exact absurd h (List.not_mem_nil ctx)
  rename_i raw
  cases hfr : formatResults (chromaIncludeFilter raw retrieveIncludeFields) <;> simp only [hfr] at h
  · exact absurd h (List.not_mem_nil ctx)
  rename_i ctxs
  exact formatResults_distance_none _ (includeFilter_distances_none raw) ctxs hfr ctx h

/-- Witness for the amended C8 at the concrete example retrieval. -/
theorem retrieved_distance_always_none_witness : exRetrieved.distance = none :=
  retrieved_distance_always_none okEmbed okIndex sumQuery 1 exRetrieved
    (by rw [retrieve_example_eval]; exact List.mem_singleton.mpr rfl)

/-- C9: first, every verdict grade_answer can produce has its score field equal
to the correctness-based increment the aggregator adds; second, for any list of
verdicts with that property, recording them all leaves overall_score equal to
the starting score plus the sum of the verdicts' score fields — aggregation is
a pure fold summing scores. -/
theorem aggregate_equals_score_sum :
    (∀ (q : Question) (a : String) (o : OracleOutcome),
      (grade_answer q a o).score = correctnessIncrement (grade_answer q a o).correctness) ∧
    (∀ (init : InterviewState) (gas : List GradedAnswer),
      (∀ ga ∈ gas, ga.score = correctnessIncrement ga.correctness) →
      (recordAll init gas).overall_score
        = init.overall_score + (gas.map GradedAnswer.score).sum) := by
  constructor
  · intro q a o
    cases o with
    | raised e => rfl
    | parseFailed e => rfl
    | parsed d => rfl
  · intro init gas
    induction gas generalizing init with
    | nil =>
      intro _
      simp [recordAll]
    | cons ga gas ih =>
      intro h
      have hga : ga.score = correctnessIncrement ga.correctness :=
        h ga (List.mem_cons_self ga gas)
      have hrest : ∀ x ∈ gas, x.score = correctnessIncrement x.correctness :=
        fun x hx => h x (List.mem_cons_of_mem ga hx)
      have hstep : recordAll init (ga :: gas) = recordAll (record_graded_answer init ga) gas := rfl
      rw [hstep, ih (record_graded_answer init ga) hrest]
      show init.overall_score + correctnessIncrement ga.correctness + (gas.map GradedAnswer.score).sum
        = init.overall_score + (ga.score + (gas.map GradedAnswer.score).sum)
      rw [hga]
      ring

/-- Parsed oracle response rating the answer Correct. -/
def dictCorrect : EvalDict := ⟨some "Correct", some "Accurate.", some "Nothing to add."⟩

/-- Parsed oracle response rating the answer Partially Correct. -/
def dictPartial : EvalDict := ⟨some "Partially Correct", none, none⟩

/-- Parsed oracle response rating the answer Incorrect. -/
def dictIncorrect : EvalDict := ⟨some "Incorrect", none, none⟩

/-- Candidate answer graded Correct in the session example. -/
def ansCorrect : String := "It adds numbers together."

/-- Candidate answer graded Partially Correct in the session example. -/
def ansPartial : String := "It does addition over cells, I think."

/-- Candidate answer graded Incorrect in the session example. -/
def ansIncorrect : String := "I do not know."

/-- Verdict produced by the evaluator for the Correct answer. -/
def gaCorrect : GradedAnswer := grade_answer exQuestion ansCorrect (.parsed dictCorrect)

/-- Verdict produced by the evaluator for the Partially Correct answer. -/
def gaPartial : GradedAnswer := grade_answer exQuestion ansPartial (.parsed dictPartial)

/-- Verdict produced by the evaluator for the Incorrect answer. -/
def gaIncorrect : GradedAnswer := grade_answer exQuestion ansIncorrect (.parsed dictIncorrect)

/-- Fresh session state before any answer is recorded. -/
def emptySession : InterviewState := ⟨[], 0⟩

/-- Witness for C9: a three-question session with evaluator-produced verdicts
scoring 1, 1/2 and 0 aggregates to an overall score of 3/2. -/
theorem aggregate_equals_score_sum_witness :
    (recordAll emptySession [gaCorrect, gaPartial, gaIncorrect]).overall_score = 3/2 := by
  have h := aggregate_equals_score_sum.2 emptySession [gaCorrect, gaPartial, gaIncorrect]
    (by
      intro ga hga
      rcases List.mem_cons.mp hga with h1 | hga
      · subst h1; rfl
      rcases List.mem_cons.mp hga with h1 | hga
      · subst h1; rfl
      rcases List.mem_cons.mp hga with h1 | hga
      · subst h1; rfl
      · exact absurd hga (List.not_mem_nil ga))
  rw [h]
  show (0 : ℚ) + ((1 : ℚ) + (1/2 + ((0 : ℚ) + 0))) = 3/2
  norm_num

end ExcelMock
